import Mathlib

/-!
Verification of the ingestion/aggregation/broadcast backend of the
MongoDB Log Anomaly & Security Monitor (Express server in `backend/server.js`).

The JavaScript handlers are shallowly embedded: JSON/JS values become the
`JsValue` inductive, JS numbers become exact rationals, the document store
becomes a list of saved documents, and the `create(...).then(emit; respond)
.catch(respond 500)` sequencing of the POST handler becomes an explicit
trace of events produced by the handler.
-/

namespace Monitor

/-- A JavaScript/JSON value as seen by the Express handlers.
`undefined` models the JavaScript value of a missing property. -/
inductive JsValue where
  | undefined : JsValue
  | null : JsValue
  | bool : Bool → JsValue
  | num : ℚ → JsValue
  | str : String → JsValue
  | arr : List JsValue → JsValue
  | obj : List (String × JsValue) → JsValue
  deriving Repr

/-- JavaScript truthiness: `undefined`, `null`, `false`, `0`, and `""` are
falsy; every other value (including any object or array) is truthy. -/
def truthy : JsValue → Bool
  | .undefined => false
  | .null => false
  | .bool b => b
  | .num q => q != 0
  | .str s => s != ""
  | .arr _ => true
  | .obj _ => true

/-- `typeof v === 'undefined'`. -/
def isUndefined : JsValue → Bool
  | .undefined => true
  | _ => false

/-- `v === null || v === undefined` (the values on which `??` and `?.`
take their fallback branch). -/
def isNullish : JsValue → Bool
  | .undefined => true
  | .null => true
  | _ => false

/-- Property read `v.k` as the handlers use it: on an object, the first
binding of the key (or `undefined` when absent); on any non-object value
the properties read by this backend (`log`, `severity`, `s`, `msg`, ...)
are `undefined`.  Because the code only dereferences values it has guarded
by `!payload` or optional chaining `?.`, this total function also models
those guarded accesses. -/
def jsGet : JsValue → String → JsValue
  | .obj fields, k =>
    match fields.find? (fun p => p.1 == k) with
    | some p => p.2
    | none => .undefined
  | _, _ => .undefined

/-- JavaScript `a || b`. -/
def jsOr (a b : JsValue) : JsValue := if truthy a then a else b

/-- JavaScript `a ?? b` (nullish coalescing). -/
def jsNullish (a b : JsValue) : JsValue := if isNullish a then b else a

/-! ## The persisted document (mongoose `logSchema` / the `doc` literal) -/

/-- The document the POST handler builds and hands to `LogModel.create`.
Timestamps are server-clock instants in milliseconds since the epoch
(`Date.now()` values).  `meta_severity`, `anomaly_score`, `reason` and
`entities` hold the raw results of the defaulting expressions in the
handler; `is_anomaly` and `model_used` are strict booleans because the
handler applies `!!`. -/
structure StoredDoc where
  timestamp : Nat
  meta_source : String
  meta_severity : JsValue
  log : JsValue
  is_anomaly : Bool
  anomaly_score : JsValue
  reason : JsValue
  entities : JsValue
  model_used : Bool

/-- A document as returned by `LogModel.create`: the stored document plus
its server-generated identifier `_id`. -/
structure SavedDoc where
  id : Nat
  doc : StoredDoc

/-- The `doc` object literal built by `app.post('/api/logs')` from the
request body (lines 256–268 of `server.js`):

    timestamp: new Date(),
    meta: { source: 'ai_engine',
            severity: payload.log?.severity || payload.log?.s || 'I' },
    log: payload.log,
    is_anomaly: !!payload.is_anomaly,
    anomaly_score: payload.anomaly_score ?? 0,
    reason: payload.reason || '',
    entities: payload.entities || {},
    model_used: !!payload.model_used
-/
def buildDoc (now : Nat) (payload : JsValue) : StoredDoc :=
  { timestamp := now
    meta_source := "ai_engine"
    meta_severity :=
      jsOr (jsGet (jsGet payload "log") "severity")
        (jsOr (jsGet (jsGet payload "log") "s") (.str "I"))
    log := jsGet payload "log"
    is_anomaly := truthy (jsGet payload "is_anomaly")
    anomaly_score := jsNullish (jsGet payload "anomaly_score") (.num 0)
    reason := jsOr (jsGet payload "reason") (.str "")
    entities := jsOr (jsGet payload "entities") (.obj [])
    model_used := truthy (jsGet payload "model_used") }

/-! ## POST /api/logs -/

/-- The HTTP response of the POST handler: 400 with an error descriptor,
201 with `{id, ok:true}`, or 500 with an error descriptor. -/
inductive PostResponse where
  | badRequest (error : String)
  | created (id : Nat)
  | serverError (error : String)

/-- The HTTP status code of a POST response. -/
def PostResponse.status : PostResponse → Nat
  | .badRequest _ => 400
  | .created _ => 201
  | .serverError _ => 500

/-- Observable effects of one run of the POST handler, in the order they
happen: the storage write being durably acknowledged (the `.then` branch
firing), the write failing (the `.catch` branch firing), and a Socket.io
`io.emit(name, saved)` broadcast. -/
inductive TraceEvent where
  | writeOk (d : SavedDoc)
  | writeFail
  | emit (channel : String) (d : SavedDoc)

/-- Result of one POST /api/logs request: the HTTP response, the store
contents afterwards, and the ordered trace of effects. -/
structure PostOutcome where
  response : PostResponse
  store : List SavedDoc
  trace : List TraceEvent

/-- The validation guard of the POST handler:
`!payload || typeof payload.log === 'undefined'`. -/
def postRejects (payload : JsValue) : Bool :=
  !truthy payload || isUndefined (jsGet payload "log")

/-- `app.post('/api/logs')` (lines 250–279 of `server.js`).  `now` is the
server clock at receipt; `storage` is the outcome of `LogModel.create`
(`some id`: the write is durably acknowledged with generated id `_id`;
`none`: the write fails and the `.catch` branch runs); `store` is the
collection before the request.  On the failure path nothing is written
and nothing is emitted; on the success path the broadcast `io.emit('log',
saved)` happens strictly after the acknowledged write. -/
def postLogs (now : Nat) (payload : JsValue) (storage : Option Nat)
    (store : List SavedDoc) : PostOutcome :=
  if postRejects payload then
    { response := .badRequest "Invalid payload: log required"
      store := store
      trace := [] }
  else
    let doc := buildDoc now payload
    match storage with
    | some id =>
      let saved : SavedDoc := ⟨id, doc⟩
      { response := .created id
        store := store ++ [saved]
        trace := [.writeOk saved, .emit "log" saved] }
    | none =>
      { response := .serverError "Failed to save log"
        store := store
        trace := [.writeFail] }

/-! ## Sorting by timestamp, newest first (`.sort({ timestamp: -1 })`) -/

/-- Timestamp of a saved document. -/
def tsOf (d : SavedDoc) : Nat := d.doc.timestamp

/-- Insert a document into a list already sorted by timestamp descending,
keeping it sorted. -/
def insertDesc (d : SavedDoc) : List SavedDoc → List SavedDoc
  | [] => [d]
  | x :: xs => if tsOf x ≤ tsOf d then d :: x :: xs else x :: insertDesc d xs

/-- `.sort({ timestamp: -1 })`: the collection ordered by timestamp
descending (newest first), as an insertion sort. -/
def sortByTsDesc : List SavedDoc → List SavedDoc
  | [] => []
  | x :: xs => insertDesc x (sortByTsDesc xs)

/-! ## GET /api/stats -/

/-- One day in milliseconds: `24 * 60 * 60 * 1000`. -/
def DAY_MS : Nat := 24 * 60 * 60 * 1000

/-- `{ timestamp: { $gte: oneDayAgo } }` with
`oneDayAgo = new Date(now.getTime() - 24*60*60*1000)`. -/
def inWindow (now : Nat) (d : SavedDoc) : Bool :=
  (now : Int) - (DAY_MS : Int) ≤ (tsOf d : Int)

/-- `Math.round`: round to the nearest integer, ties towards `+∞`
(computed as the floor of `q + 1/2`). -/
def jsRound (q : ℚ) : Int := (q + 1 / 2).floor

/-- The unrounded anomaly rate:
`total > 0 ? (anomalies / total) * 100 : 0`. -/
def rawRate (total anomalies : Nat) : ℚ :=
  if 0 < total then (anomalies : ℚ) / (total : ℚ) * 100 else 0

/-- The threat-level ladder of the stats handler:
`rate > 10 ? 'high' : rate > 3 ? 'medium' : rate > 0 ? 'low' : 'none'`,
evaluated on the unrounded rate. -/
def threatLevelOf (rate : ℚ) : String :=
  if 10 < rate then "high"
  else if 3 < rate then "medium"
  else if 0 < rate then "low"
  else "none"

/-- One element of the `recentAnomalies` array of the stats response:
`{ timestamp: a.timestamp, msg: a.log?.msg, reason: a.reason,
   score: a.anomaly_score }`. -/
structure AnomalyView where
  timestamp : Nat
  msg : JsValue
  reason : JsValue
  score : JsValue

/-- The projection applied to each recent anomalous document. -/
def projAnomaly (d : SavedDoc) : AnomalyView :=
  { timestamp := tsOf d
    msg := jsGet d.doc.log "msg"
    reason := d.doc.reason
    score := d.doc.anomaly_score }

/-- The JSON body of a successful GET /api/stats response. -/
structure StatsResponse where
  total : Nat
  anomalies : Nat
  anomalyRate : ℚ
  threatLevel : String
  recentAnomalies : List AnomalyView

/-- `app.get('/api/stats')` (lines 282–316 of `server.js`), success path:
counts over the trailing 24-hour window, the anomaly rate rounded to two
decimals by `Math.round(rate * 100) / 100`, the threat level from the
unrounded rate, and up to 100 newest anomalous window documents projected
to `{timestamp, msg, reason, score}`. -/
def getStats (now : Nat) (store : List SavedDoc) : StatsResponse :=
  let windowed := store.filter (fun d => inWindow now d)
  let anomDocs := windowed.filter (fun d => d.doc.is_anomaly)
  let total := windowed.length
  let anomalies := anomDocs.length
  let rate := rawRate total anomalies
  { total := total
    anomalies := anomalies
    anomalyRate := (jsRound (rate * 100) : ℚ) / 100
    threatLevel := threatLevelOf rate
    recentAnomalies := ((sortByTsDesc anomDocs).take 100).map projAnomaly }

/-! ## GET /api/logs -/

/-- Accumulate the value of a string of decimal digits. -/
def decDigitsVal : List Char → Nat → Nat
  | [], acc => acc
  | c :: cs, acc => decDigitsVal cs (acc * 10 + (c.toNat - '0'.toNat))

/-- JavaScript `parseInt(s, 10)`: skip leading whitespace, read an
optional sign and then the longest prefix of decimal digits; `none`
models the `NaN` result when no digit is found (including when the query
parameter is absent, since `parseInt(undefined, 10)` is `NaN`). -/
def jsParseInt : Option String → Option Int
  | none => none
  | some s =>
    let cs := s.data.dropWhile Char.isWhitespace
    let signAndDigits : Int × List Char :=
      match cs with
      | '-' :: rest => (-1, rest)
      | '+' :: rest => (1, rest)
      | _ => (1, cs)
    let ds := signAndDigits.2.takeWhile Char.isDigit
    if ds.isEmpty then none else some (signAndDigits.1 * (decDigitsVal ds 0 : Int))

/-- JavaScript `n || d` on the result of `parseInt`: the default is taken
exactly when the parse is `NaN` or yields `0` (the falsy numbers). -/
def jsOrNum (v : Option Int) (d : Int) : Int :=
  match v with
  | none => d
  | some n => if n = 0 then d else n

/-- `Math.min(parseInt(req.query.limit, 10) || 50, 200)` (line 320). -/
def parseLimit (q : Option String) : Int := min (jsOrNum (jsParseInt q) 50) 200

/-- `parseInt(req.query.skip, 10) || 0` (line 321). -/
def parseSkip (q : Option String) : Int := jsOrNum (jsParseInt q) 0

/-- The JSON body of a successful GET /api/logs response. -/
structure LogsResponse where
  logs : List SavedDoc
  total : Nat

/-- `app.get('/api/logs')` (lines 319–334 of `server.js`), success path:
`LogModel.find().sort({timestamp: -1}).skip(skip).limit(limit)` together
with the unfiltered `countDocuments()`.  `skip`/`limit` are applied as
positions in the sorted list; the handler is modelled on requests whose
parsed `skip` and `limit` are non-negative (the only values with
well-defined MongoDB cursor semantics). -/
def getLogs (limitQ skipQ : Option String) (store : List SavedDoc) :
    LogsResponse :=
  { logs := ((sortByTsDesc store).drop (parseSkip skipQ).toNat).take
      (parseLimit limitQ).toNat
    total := store.length }

/-! ## Concrete documents for test stores -/

/-- A minimal saved document used in concrete test stores. -/
def mkSaved (id ts : Nat) (anom : Bool) : SavedDoc :=
  ⟨id, { timestamp := ts
         meta_source := "ai_engine"
         meta_severity := .str "I"
         log := .obj [("msg", .str "slow query")]
         is_anomaly := anom
         anomaly_score := .num 0
         reason := .str ""
         entities := .obj []
         model_used := false }⟩

/-- Server clock used by the concrete stats scenario. -/
def statsNow : Nat := 2 * DAY_MS

/-- Ten documents inside the trailing 24-hour window, two anomalous. -/
def statsStore10 : List SavedDoc :=
  [mkSaved 0 statsNow true, mkSaved 1 statsNow true, mkSaved 2 statsNow false,
   mkSaved 3 statsNow false, mkSaved 4 statsNow false, mkSaved 5 statsNow false,
   mkSaved 6 statsNow false, mkSaved 7 statsNow false, mkSaved 8 statsNow false,
   mkSaved 9 statsNow false]

/-- A `log` value that is `null` or a non-object scalar. -/
def isScalarLog : JsValue → Bool
  | .null => true
  | .bool _ => true
  | .num _ => true
  | .str _ => true
  | _ => false

/-! ## Properties of the timestamp-descending sort -/

/-- The order contract of `.sort({ timestamp: -1 })`: pairwise
non-increasing timestamps (newest first). -/
def DescByTs (l : List SavedDoc) : Prop :=
  List.Pairwise (fun a b => tsOf b ≤ tsOf a) l

theorem insertDesc_perm (d : SavedDoc) (l : List SavedDoc) :
    List.Perm (insertDesc d l) (d :: l) := by
  induction l with
  | nil => exact List.Perm.refl _
  | cons x xs ih =>
    by_cases h : tsOf x ≤ tsOf d
    · simp [insertDesc, h]
    · simp only [insertDesc, if_neg h]
      exact (ih.cons x).trans (List.Perm.swap d x xs)

theorem sortByTsDesc_perm (l : List SavedDoc) :
    List.Perm (sortByTsDesc l) l := by
  induction l with
  | nil => exact List.Perm.refl _
  | cons x xs ih => exact (insertDesc_perm x (sortByTsDesc xs)).trans (ih.cons x)

theorem mem_sortByTsDesc {d : SavedDoc} {l : List SavedDoc} :
    d ∈ sortByTsDesc l ↔ d ∈ l :=
  (sortByTsDesc_perm l).mem_iff

theorem insertDesc_sorted (d : SavedDoc) (l : List SavedDoc)
    (h : DescByTs l) : DescByTs (insertDesc d l) := by
  induction l with
  | nil => simp [insertDesc, DescByTs]
  | cons x xs ih =>
    rcases List.pairwise_cons.mp h with ⟨hx, hxs⟩
    by_cases hc : tsOf x ≤ tsOf d
    · simp only [DescByTs, insertDesc, if_pos hc]
      refine List.pairwise_cons.mpr ⟨?_, h⟩
      intro y hy
      rcases List.mem_cons.mp hy with rfl | hy
      · exact hc
      · exact le_trans (hx y hy) hc
    · simp only [DescByTs, insertDesc, if_neg hc]
      refine List.pairwise_cons.mpr ⟨?_, ih hxs⟩
      intro y hy
      rcases List.mem_cons.mp ((insertDesc_perm d xs).mem_iff.mp hy) with rfl | hy
      · exact le_of_lt (lt_of_not_le hc)
      · exact hx y hy

theorem sortByTsDesc_sorted (l : List SavedDoc) : DescByTs (sortByTsDesc l) := by
  induction l with
  | nil => exact List.Pairwise.nil
  | cons x xs ih => exact insertDesc_sorted x (sortByTsDesc xs) ih

/-- A document strictly newer than every other document of the collection
is among the first `k` documents of the timestamp-descending sort, for
any positive `k`. -/
theorem mem_take_sortByTsDesc_of_max (l : List SavedDoc) (x : SavedDoc)
    (k : Nat) (hk : 0 < k) (hx : x ∈ l)
    (hmax : ∀ y ∈ l, y ≠ x → tsOf y < tsOf x) :
    x ∈ (sortByTsDesc l).take k := by
  have hx' : x ∈ sortByTsDesc l := mem_sortByTsDesc.mpr hx
  rcases hsort : sortByTsDesc l with _ | ⟨h, t⟩
  · rw [hsort] at hx'; cases hx'
  · rw [hsort] at hx'
    have hsorted := sortByTsDesc_sorted l
    rw [hsort] at hsorted
    rcases List.pairwise_cons.mp hsorted with ⟨hhead, _⟩
    by_cases hhx : h = x
    · cases k with
      | zero => cases hk
      | succ n => rw [List.take_succ_cons, hhx]; exact List.mem_cons_self _ _
    · exfalso
      have hxt : x ∈ t := (List.mem_cons.mp hx').resolve_left (fun hh => hhx hh.symm)
      have hhl : h ∈ l := by
        have hm : h ∈ sortByTsDesc l := by rw [hsort]; exact List.mem_cons_self _ _
        exact mem_sortByTsDesc.mp hm
      exact absurd (hhead x hxt) (not_le.mpr (hmax h hhl hhx))

/-! ## The claims -/

/-- C1: for every POST /api/logs request with a valid payload, the `log`
broadcast for the saved record appears in the effect trace only strictly
after the acknowledged storage write of that record, and when the storage
write fails the handler responds 500, emits no broadcast at all, and
leaves the collection unchanged. -/
theorem post_broadcast_after_write (now : Nat) (payload : JsValue)
    (storage : Option Nat) (store : List SavedDoc)
    (hvalid : postRejects payload = false) :
    (∀ (d : SavedDoc) (n : Nat),
      ((postLogs now payload storage store).trace.get? n
        = some (.emit "log" d)) →
      ∃ m, m < n ∧ (postLogs now payload storage store).trace.get? m
        = some (.writeOk d))
    ∧ (storage = none →
        (postLogs now payload storage store).response.status = 500
        ∧ (∀ d : SavedDoc,
            TraceEvent.emit "log" d ∉ (postLogs now payload storage store).trace)
        ∧ (postLogs now payload storage store).store = store) := by
  simp only [postLogs, hvalid, Bool.false_eq_true, if_false]
  cases storage with
  | some id =>
    refine ⟨?_, fun h => by cases h⟩
    intro d n hn
    match n with
    | 0 => simp at hn
    | 1 =>
      simp only [List.get?] at hn
      injection hn with hn
      injection hn with _ hd
      exact ⟨0, Nat.zero_lt_one, by subst hd; rfl⟩
    | (k + 2) => simp [List.get?] at hn
  | none =>
    refine ⟨?_, fun _ => ⟨rfl, ?_, rfl⟩⟩
    · intro d n hn
      match n with
      | 0 => simp only [List.get?] at hn; injection hn with hn; cases hn
      | (k + 1) => simp [List.get?] at hn
    · intro d hd
      rcases List.mem_singleton.mp hd with h
      cases h

/-- C1 witness: a concrete valid payload whose storage write fails gets a
500 response and an unchanged store. -/
theorem post_broadcast_after_write_witness :
    (postLogs 5 (JsValue.obj [("log", JsValue.null)]) none []).response.status
      = 500
    ∧ (postLogs 5 (JsValue.obj [("log", JsValue.null)]) none []).store = [] := by
  have h := post_broadcast_after_write 5 (JsValue.obj [("log", JsValue.null)])
    none [] (by decide)
  exact ⟨(h.2 rfl).1, (h.2 rfl).2.2⟩

/-- C2: for every POST /api/logs request whose body lacks the `log` key
(or has no, or a falsy, body), the handler answers 400 with the error
descriptor, writes nothing, and emits nothing: the whole outcome is the
bad-request response with the store unchanged and an empty effect
trace. -/
theorem post_missing_log_rejected (now : Nat) (payload : JsValue)
    (storage : Option Nat) (store : List SavedDoc)
    (hmiss : jsGet payload "log" = .undefined ∨ truthy payload = false) :
    postLogs now payload storage store =
      { response := .badRequest "Invalid payload: log required"
        store := store
        trace := [] }
    ∧ (postLogs now payload storage store).response.status = 400 := by
  have hrej : postRejects payload = true := by
    rcases hmiss with h | h
    · simp [postRejects, h, isUndefined]
    · simp [postRejects, h]
  simp [postLogs, hrej, PostResponse.status]

/-- C2 witness: a body that is an object without a `log` key gets the 400
outcome with untouched store and no trace. -/
theorem post_missing_log_rejected_witness :
    postLogs 5 (JsValue.obj [("x", JsValue.num 1)]) (some 3)
      [mkSaved 0 1 false] =
      { response := .badRequest "Invalid payload: log required"
        store := [mkSaved 0 1 false]
        trace := [] } :=
  (post_missing_log_rejected 5 (JsValue.obj [("x", JsValue.num 1)]) (some 3)
    [mkSaved 0 1 false] (Or.inl rfl)).1

/-- C3: for every GET /api/stats response, the threat level is
`threatLevelOf` of the unrounded rate recomputed from the response's own
`total` and `anomalies` counts; the ladder obeys the fixed breakpoints
with strict comparisons, and the boundary rates 10 and 3 give `medium`
and `low`. -/
theorem stats_threat_level_breakpoints (now : Nat) (store : List SavedDoc) :
    (getStats now store).threatLevel
      = threatLevelOf (rawRate (getStats now store).total
          (getStats now store).anomalies)
    ∧ (∀ q : ℚ,
        (10 < q → threatLevelOf q = "high")
        ∧ (3 < q → q ≤ 10 → threatLevelOf q = "medium")
        ∧ (0 < q → q ≤ 3 → threatLevelOf q = "low")
        ∧ (q = 0 → threatLevelOf q = "none"))
    ∧ threatLevelOf 10 = "medium" ∧ threatLevelOf 3 = "low" := by
  refine ⟨rfl, ?_, by norm_num [threatLevelOf], by norm_num [threatLevelOf]⟩
  intro q
  refine ⟨fun h => by rw [threatLevelOf, if_pos h], ?_, ?_, ?_⟩
  · intro h1 h2
    rw [threatLevelOf, if_neg (not_lt.mpr h2), if_pos h1]
  · intro h1 h2
    rw [threatLevelOf, if_neg (by linarith), if_neg (not_lt.mpr h2), if_pos h1]
  · intro h
    subst h
    norm_num [threatLevelOf]

/-- C3 witness: the breakpoint implications applied at the boundary rates
10, 3, a rate above 10, and rate 0. -/
theorem stats_threat_level_breakpoints_witness :
    threatLevelOf 10 = "medium" ∧ threatLevelOf 3 = "low"
    ∧ threatLevelOf 12 = "high" ∧ threatLevelOf 0 = "none" := by
  have h := (stats_threat_level_breakpoints 0 []).2.1
  exact ⟨(h 10).2.1 (by norm_num) (by norm_num),
         (h 3).2.2.1 (by norm_num) (by norm_num),
         (h 12).1 (by norm_num), (h 0).2.2.2 rfl⟩

/-- `jsRound` agrees with the mathematical floor of `q + 1/2`. -/
theorem jsRound_eq_floor (q : ℚ) : jsRound q = ⌊q + 1 / 2⌋ := by
  rw [jsRound, Rat.floor_def, Rat.floor_def']

/-- C4: for every GET /api/stats response, `anomalyRate` is
`anomalies / total * 100` rounded to two decimals (`Math.round` of 100
times the rate, divided by 100) when `total > 0`, and 0 when `total = 0`;
the ten-record scenario with two anomalies yields total 10, anomalies 2,
anomalyRate 20, threatLevel "high". -/
theorem stats_anomaly_rate_rounding (now : Nat) (store : List SavedDoc) :
    (0 < (getStats now store).total →
      (getStats now store).anomalyRate
        = (jsRound (((getStats now store).anomalies : ℚ)
            / ((getStats now store).total : ℚ) * 100 * 100) : ℚ) / 100)
    ∧ ((getStats now store).total = 0 → (getStats now store).anomalyRate = 0)
    ∧ (getStats statsNow statsStore10).total = 10
    ∧ (getStats statsNow statsStore10).anomalies = 2
    ∧ (getStats statsNow statsStore10).anomalyRate = 20
    ∧ (getStats statsNow statsStore10).threatLevel = "high" := by
  have h10 : (getStats statsNow statsStore10).total = 10 := by decide
  have h2 : (getStats statsNow statsStore10).anomalies = 2 := by decide
  have hrate : rawRate (getStats statsNow statsStore10).total
      (getStats statsNow statsStore10).anomalies = 20 := by
    rw [h10, h2]
    simp only [rawRate]
    norm_num
  refine ⟨?_, ?_, h10, h2, ?_, ?_⟩
  · intro h
    show (jsRound (rawRate (getStats now store).total
        (getStats now store).anomalies * 100) : ℚ) / 100 = _
    simp only [rawRate]
    rw [if_pos h]
  · intro h
    have hr : rawRate (getStats now store).total
        (getStats now store).anomalies = 0 := by
      rw [h]
      simp only [rawRate]
      norm_num
    show (jsRound (rawRate (getStats now store).total
        (getStats now store).anomalies * 100) : ℚ) / 100 = 0
    rw [hr]
    norm_num [jsRound, Rat.floor_def']
  · show (jsRound (rawRate (getStats statsNow statsStore10).total
        (getStats statsNow statsStore10).anomalies * 100) : ℚ) / 100 = 20
    rw [hrate]
    norm_num [jsRound, Rat.floor_def']
  · show threatLevelOf (rawRate (getStats statsNow statsStore10).total
        (getStats statsNow statsStore10).anomalies) = "high"
    rw [hrate]
    norm_num [threatLevelOf]

/-- C4 witness: the rounding formula instantiated on the ten-record
scenario store (where `total = 10 > 0`), and the zero-total branch on the
empty store. -/
theorem stats_anomaly_rate_rounding_witness :
    (getStats statsNow statsStore10).anomalyRate
      = (jsRound (((getStats statsNow statsStore10).anomalies : ℚ)
          / ((getStats statsNow statsStore10).total : ℚ) * 100 * 100) : ℚ) / 100
    ∧ (getStats 0 []).anomalyRate = 0 :=
  ⟨(stats_anomaly_rate_rounding statsNow statsStore10).1 (by decide),
   (stats_anomaly_rate_rounding 0 []).2.1 rfl⟩

/-- C5 counterexample: the claim says `limit=-5` falls back to the
default 50 and `skip=-3` falls back to 0; the handler's parsing
(`parseInt(...) || default`) only falls back on `NaN` or `0`, so the
negative values pass through unchanged. -/
theorem logs_query_param_counterexample :
    parseLimit (some "-5") = -5 ∧ parseLimit (some "-5") ≠ 50
    ∧ parseSkip (some "-3") = -3 ∧ parseSkip (some "-3") ≠ 0 := by
  decide

/-- C5 (amended): `limit` defaults to 50 when the parameter is absent,
unparsable, or parses to 0, and is clamped to at most 200 (`limit=500`
gives 200); a parsed nonzero value — including a negative one such as
`-5` — is kept and only clamped from above.  `skip` defaults to 0 when
absent, unparsable, or 0, and likewise keeps any parsed nonzero value,
negative ones included. -/
theorem logs_query_param_parsing :
    parseLimit none = 50 ∧ parseLimit (some "abc") = 50
    ∧ parseLimit (some "0") = 50 ∧ parseLimit (some "500") = 200
    ∧ parseLimit (some "-5") = -5
    ∧ (∀ (q : Option String) (n : Int), jsParseInt q = some n → n ≠ 0 →
        parseLimit q = min n 200)
    ∧ parseSkip none = 0 ∧ parseSkip (some "abc") = 0
    ∧ parseSkip (some "-3") = -3
    ∧ (∀ (q : Option String) (n : Int), jsParseInt q = some n → n ≠ 0 →
        parseSkip q = n) := by
  refine ⟨by decide, by decide, by decide, by decide, by decide, ?_,
    by decide, by decide, by decide, ?_⟩
  · intro q n h hn
    simp [parseLimit, jsOrNum, h, hn]
  · intro q n h hn
    simp [parseSkip, jsOrNum, h, hn]

/-- C5 witness: the pass-through conjuncts applied to the concrete query
strings "7" and "12". -/
theorem logs_query_param_parsing_witness :
    parseLimit (some "7") = min 7 200 ∧ parseSkip (some "12") = 12 :=
  ⟨(logs_query_param_parsing.2.2.2.2.2.1 (some "7") 7 (by decide) (by decide)),
   (logs_query_param_parsing.2.2.2.2.2.2.2.2.2 (some "12") 12 (by decide)
     (by decide))⟩

/-- C6: for every POST /api/logs request whose body carries the `log` key
with any non-absent value (falsy scalars such as `null` or `0` included),
when storage acknowledges the write the handler answers 201 (`created`
with the saved id), appends exactly the built document to the collection,
and a subsequent GET /api/logs with default parameters lists the record
(it is the newest one, so it survives the default limit of 50). -/
theorem post_valid_payload_created (now : Nat) (payload : JsValue) (id : Nat)
    (store : List SavedDoc)
    (hvalid : postRejects payload = false)
    (hfresh : ∀ d ∈ store, tsOf d < now) :
    (postLogs now payload (some id) store).response = .created id
    ∧ (postLogs now payload (some id) store).response.status = 201
    ∧ (postLogs now payload (some id) store).store
        = store ++ [⟨id, buildDoc now payload⟩]
    ∧ (⟨id, buildDoc now payload⟩ : SavedDoc)
        ∈ (getLogs none none
            (postLogs now payload (some id) store).store).logs := by
  have hout : postLogs now payload (some id) store =
      { response := .created id
        store := store ++ [⟨id, buildDoc now payload⟩]
        trace := [.writeOk ⟨id, buildDoc now payload⟩,
                  .emit "log" ⟨id, buildDoc now payload⟩] } := by
    simp [postLogs, hvalid]
  refine ⟨by rw [hout], by rw [hout]; rfl, by rw [hout], ?_⟩
  rw [hout]
  show (⟨id, buildDoc now payload⟩ : SavedDoc) ∈
    ((sortByTsDesc (store ++ [⟨id, buildDoc now payload⟩])).drop
      (parseSkip none).toNat).take (parseLimit none).toNat
  have hskip : (parseSkip none).toNat = 0 := rfl
  have hlim : (parseLimit none).toNat = 50 := rfl
  rw [hskip, hlim, List.drop_zero]
  apply mem_take_sortByTsDesc_of_max _ _ _ (by norm_num)
  · exact List.mem_append_right _ (List.mem_singleton_self _)
  · intro y hy hne
    rcases List.mem_append.mp hy with h | h
    · exact hfresh y h
    · exact absurd (List.mem_singleton.mp h) hne

/-- C6 witness: a payload whose `log` value is the falsy scalar `0`,
posted to an empty store with an acknowledged write, yields 201 and shows
up in the default GET /api/logs listing. -/
theorem post_valid_payload_created_witness :
    (postLogs 9 (JsValue.obj [("log", JsValue.num 0)])
      (some 1) []).response.status = 201
    ∧ (⟨1, buildDoc 9 (JsValue.obj [("log", JsValue.num 0)])⟩ : SavedDoc)
        ∈ (getLogs none none
            (postLogs 9 (JsValue.obj [("log", JsValue.num 0)])
              (some 1) []).store).logs := by
  have h := post_valid_payload_created 9 (JsValue.obj [("log", JsValue.num 0)])
    1 [] (by decide) (by intro d hd; cases hd)
  exact ⟨h.2.1, h.2.2.2⟩

/-- C7: the stored document takes its timestamp from the server clock
(never from the caller), derives `meta.severity` from `log.severity` then
`log.s` with default `"I"` when neither is present, coerces `is_anomaly`
and `model_used` to strict booleans (the string `"true"` is stored as
`true`), defaults `anomaly_score` to 0 exactly when the field is absent
or `null`, and defaults `reason` to `""` and `entities` to an empty
object when absent. -/
theorem post_doc_field_defaults (now : Nat) (payload : JsValue) :
    (buildDoc now payload).timestamp = now
    ∧ (jsGet (jsGet payload "log") "severity" = .undefined →
        jsGet (jsGet payload "log") "s" = .undefined →
        (buildDoc now payload).meta_severity = .str "I")
    ∧ (truthy (jsGet (jsGet payload "log") "severity") = true →
        (buildDoc now payload).meta_severity
          = jsGet (jsGet payload "log") "severity")
    ∧ (truthy (jsGet (jsGet payload "log") "severity") = false →
        truthy (jsGet (jsGet payload "log") "s") = true →
        (buildDoc now payload).meta_severity = jsGet (jsGet payload "log") "s")
    ∧ (jsGet payload "is_anomaly" = .str "true" →
        (buildDoc now payload).is_anomaly = true)
    ∧ (∀ b : Bool, jsGet payload "is_anomaly" = .bool b →
        (buildDoc now payload).is_anomaly = b)
    ∧ (∀ b : Bool, jsGet payload "model_used" = .bool b →
        (buildDoc now payload).model_used = b)
    ∧ (isNullish (jsGet payload "anomaly_score") = true →
        (buildDoc now payload).anomaly_score = .num 0)
    ∧ (isNullish (jsGet payload "anomaly_score") = false →
        (buildDoc now payload).anomaly_score = jsGet payload "anomaly_score")
    ∧ (jsGet payload "reason" = .undefined →
        (buildDoc now payload).reason = .str "")
    ∧ (jsGet payload "entities" = .undefined →
        (buildDoc now payload).entities = .obj []) := by
  refine ⟨rfl, ?_, ?_, ?_, ?_, ?_, ?_, ?_, ?_, ?_, ?_⟩
  · intro h1 h2
    show jsOr (jsGet (jsGet payload "log") "severity")
      (jsOr (jsGet (jsGet payload "log") "s") (.str "I")) = _
    rw [h1, h2]
    rfl
  · intro h
    show jsOr (jsGet (jsGet payload "log") "severity")
      (jsOr (jsGet (jsGet payload "log") "s") (.str "I")) = _
    rw [jsOr, if_pos h]
  · intro h1 h2
    show jsOr (jsGet (jsGet payload "log") "severity")
      (jsOr (jsGet (jsGet payload "log") "s") (.str "I")) = _
    rw [jsOr, if_neg (by simp [h1]), jsOr, if_pos h2]
  · intro h
    show truthy (jsGet payload "is_anomaly") = true
    rw [h]
    rfl
  · intro b h
    show truthy (jsGet payload "is_anomaly") = b
    rw [h]
    rfl
  · intro b h
    show truthy (jsGet payload "model_used") = b
    rw [h]
    rfl
  · intro h
    show jsNullish (jsGet payload "anomaly_score") (.num 0) = _
    rw [jsNullish, if_pos h]
  · intro h
    show jsNullish (jsGet payload "anomaly_score") (.num 0) = _
    rw [jsNullish, if_neg (by simp [h])]
  · intro h
    show jsOr (jsGet payload "reason") (.str "") = _
    rw [h]
    rfl
  · intro h
    show jsOr (jsGet payload "entities") (.obj []) = _
    rw [h]
    rfl

/-- C7 witness: a payload carrying `is_anomaly: "true"` and an empty-log
object, with score, reason and entities absent, is stored with server
timestamp 7, severity "I", `is_anomaly: true`, score 0, empty reason and
empty entities. -/
theorem post_doc_field_defaults_witness :
    (buildDoc 7 (JsValue.obj [("log", JsValue.obj []),
      ("is_anomaly", JsValue.str "true")])).timestamp = 7
    ∧ (buildDoc 7 (JsValue.obj [("log", JsValue.obj []),
        ("is_anomaly", JsValue.str "true")])).meta_severity = .str "I"
    ∧ (buildDoc 7 (JsValue.obj [("log", JsValue.obj []),
        ("is_anomaly", JsValue.str "true")])).is_anomaly = true
    ∧ (buildDoc 7 (JsValue.obj [("log", JsValue.obj []),
        ("is_anomaly", JsValue.str "true")])).anomaly_score = .num 0
    ∧ (buildDoc 7 (JsValue.obj [("log", JsValue.obj []),
        ("is_anomaly", JsValue.str "true")])).reason = .str ""
    ∧ (buildDoc 7 (JsValue.obj [("log", JsValue.obj []),
        ("is_anomaly", JsValue.str "true")])).entities = .obj [] := by
  obtain ⟨c1, c2, c3, c4, c5, c6, c7, c8, c9, c10, c11⟩ :=
    post_doc_field_defaults 7 (JsValue.obj [("log", JsValue.obj []),
      ("is_anomaly", JsValue.str "true")])
  exact ⟨c1, c2 rfl rfl, c5 rfl, c8 rfl, c10 rfl, c11 rfl⟩

/-- C8: every GET /api/logs response lists documents in timestamp-
descending order, drawn from the collection, and reports the size of the
whole collection as `total`; three records inserted at times 1 < 2 < 3
come back newest-first under the default parameters. -/
theorem logs_listing_sorted_desc (limitQ skipQ : Option String)
    (store : List SavedDoc) :
    (getLogs limitQ skipQ store).total = store.length
    ∧ List.Pairwise (fun a b => tsOf b ≤ tsOf a) (getLogs limitQ skipQ store).logs
    ∧ (∀ d, d ∈ (getLogs limitQ skipQ store).logs → d ∈ store)
    ∧ getLogs none none [mkSaved 1 1 false, mkSaved 2 2 false, mkSaved 3 3 false]
        = { logs := [mkSaved 3 3 false, mkSaved 2 2 false, mkSaved 1 1 false]
            total := 3 } := by
  have hsub : (getLogs limitQ skipQ store).logs.Sublist (sortByTsDesc store) :=
    (List.take_sublist _ _).trans (List.drop_sublist _ _)
  refine ⟨rfl, ?_, ?_, rfl⟩
  · exact (sortByTsDesc_sorted store).sublist hsub
  · intro d hd
    exact mem_sortByTsDesc.mp (hsub.subset hd)

/-- C8 witness: the drawn-from-the-collection conjunct applied to the
newest record of the three-record store. -/
theorem logs_listing_sorted_desc_witness :
    mkSaved 3 3 false
      ∈ [mkSaved 1 1 false, mkSaved 2 2 false, mkSaved 3 3 false] := by
  have h := logs_listing_sorted_desc none none
    [mkSaved 1 1 false, mkSaved 2 2 false, mkSaved 3 3 false]
  refine h.2.2.1 (mkSaved 3 3 false) ?_
  rw [h.2.2.2]
  exact List.mem_cons_self _ _

/-- C9: every GET /api/stats response carries at most 100 recent
anomalies, pairwise newest-first, and each entry is the
`{timestamp, msg, reason, score}` projection (msg from `log.msg`, score
from `anomaly_score`) of some stored document that lies in the trailing
24-hour window and has `is_anomaly = true`. -/
theorem stats_recent_anomalies_shape (now : Nat) (store : List SavedDoc) :
    (getStats now store).recentAnomalies.length ≤ 100
    ∧ List.Pairwise (fun a b => b.timestamp ≤ a.timestamp)
        (getStats now store).recentAnomalies
    ∧ (∀ x ∈ (getStats now store).recentAnomalies,
        ∃ d, d ∈ store ∧ inWindow now d = true ∧ d.doc.is_anomaly = true
          ∧ x = projAnomaly d) := by
  have hrec : (getStats now store).recentAnomalies
      = ((sortByTsDesc ((store.filter (fun d => inWindow now d)).filter
          (fun d => d.doc.is_anomaly))).take 100).map projAnomaly := rfl
  refine ⟨?_, ?_, ?_⟩
  · rw [hrec, List.length_map]
    simp only [List.length_take]
    exact min_le_left 100 _
  · rw [hrec]
    refine List.pairwise_map.mpr ?_
    exact ((sortByTsDesc_sorted _).sublist (List.take_sublist _ _)).imp
      (fun h => h)
  · intro x hx
    rw [hrec] at hx
    rcases List.mem_map.mp hx with ⟨d, hd, rfl⟩
    have hd2 := mem_sortByTsDesc.mp ((List.take_sublist _ _).subset hd)
    rcases List.mem_filter.mp hd2 with ⟨hd3, hanom⟩
    rcases List.mem_filter.mp hd3 with ⟨hmem, hwin⟩
    exact ⟨d, hmem, hwin, hanom, rfl⟩

/-- C9 witness: the provenance conjunct applied to the single anomalous
in-window record of a one-record store. -/
theorem stats_recent_anomalies_shape_witness :
    ∃ d, d ∈ [mkSaved 0 DAY_MS true] ∧ inWindow DAY_MS d = true
      ∧ d.doc.is_anomaly = true
      ∧ projAnomaly (mkSaved 0 DAY_MS true) = projAnomaly d := by
  have h := stats_recent_anomalies_shape DAY_MS [mkSaved 0 DAY_MS true]
  refine h.2.2 (projAnomaly (mkSaved 0 DAY_MS true)) ?_
  show projAnomaly (mkSaved 0 DAY_MS true)
    ∈ [projAnomaly (mkSaved 0 DAY_MS true)]
  exact List.mem_singleton_self _

/-- C10: when the accepted `log` value is `null` or a non-object scalar,
the severity derivation is still total: the value passes the validation's
undefined-check, every property read on it yields no value, and
`meta.severity` is stored as `"I"`. -/
theorem severity_default_on_scalar_log (now : Nat) (payload : JsValue)
    (h : isScalarLog (jsGet payload "log") = true) :
    isUndefined (jsGet payload "log") = false
    ∧ (∀ k : String, jsGet (jsGet payload "log") k = .undefined)
    ∧ (buildDoc now payload).meta_severity = .str "I" := by
  have hget : ∀ k : String, jsGet (jsGet payload "log") k = .undefined := by
    intro k
    cases hv : jsGet payload "log" with
    | undefined => rfl
    | null => rfl
    | bool b => rfl
    | num q => rfl
    | str s => rfl
    | arr xs => rw [hv] at h; simp [isScalarLog] at h
    | obj fields => rw [hv] at h; simp [isScalarLog] at h
  refine ⟨?_, hget, ?_⟩
  · cases hv : jsGet payload "log" with
    | undefined => rw [hv] at h; simp [isScalarLog] at h
    | null => rfl
    | bool b => rfl
    | num q => rfl
    | str s => rfl
    | arr xs => rfl
    | obj fields => rfl
  · show jsOr (jsGet (jsGet payload "log") "severity")
      (jsOr (jsGet (jsGet payload "log") "s") (.str "I")) = _
    rw [hget "severity", hget "s"]
    rfl

/-- C10 witness: the scalar `log` value `0` passes the undefined-check
and is stored with severity "I". -/
theorem severity_default_on_scalar_log_witness :
    isUndefined (jsGet (JsValue.obj [("log", JsValue.num 0)]) "log") = false
    ∧ (buildDoc 3 (JsValue.obj [("log", JsValue.num 0)])).meta_severity
        = .str "I" := by
  have h := severity_default_on_scalar_log 3
    (JsValue.obj [("log", JsValue.num 0)]) (by decide)
  exact ⟨h.1, h.2.2⟩

end Monitor
